import Mathlib

/-!
Shallow embedding of the tempwallet-sdk core (TypeScript, ethers v6) for
verification. Wei amounts and millisecond timestamps are nonnegative
integers and are modelled as `Nat` (JS `bigint`/`number` values in this
domain are nonnegative and unbounded). External collaborators — the RPC
balance query and transaction submission — are passed in as explicit
parameters, so every operation is a pure function of its inputs.
JS truthiness (`x ?`, `!!x`) on an optional numeric value is false exactly
when the value is absent or zero; `truthyNat` captures this.
-/

/-- The structured error kinds of the SDK (src/errors.ts), plus `network`
for failures propagated unchanged from the RPC collaborator. -/
inductive SdkError where
  | expiredSession
  | alreadyUsed
  | noBalanceToSweep
  | insufficientAfterBuffer
  | notImplemented
  | network
deriving DecidableEq, Repr

/-- JS truthiness of an optional numeric value: `undefined` and `0` are
falsy, every other number is truthy. -/
def truthyNat : Option Nat → Bool
  | none => false
  | some n => n != 0

/-- TempWalletMeta from src/types.ts. -/
structure TempWalletMeta where
  createdAt : Nat
  expiresAt : Option Nat
  label : Option String
  used : Bool
deriving DecidableEq, Repr

/-- CreateTempWalletOpts from src/types.ts (`ttl` in seconds). -/
structure CreateTempWalletOpts where
  ttl : Option Nat
  label : Option String
deriving DecidableEq, Repr

/-- EstimateInputWei from src/types.ts. -/
structure EstimateInputWei where
  gasUnits : Nat
  gasPriceWei : Nat
deriving DecidableEq, Repr

/-- SweepBuildInput from src/types.ts. The balance itself is obtained via
the RPC accessor and is passed to `buildSweepTx` separately. -/
structure SweepBuildInput where
  fromAddress : String
  «to» : String
  providerUrl : String
  gasLimitBuffer : Option Nat
deriving DecidableEq, Repr

/-- The fields of the ethers TransactionRequest that buildSweepTx can
return: it populates only `to` and `value`, all gas fields stay absent. -/
structure TransactionRequest where
  «to» : String
  value : Nat
  gasPrice : Option Nat := none
  gasLimit : Option Nat := none
  maxFeePerGas : Option Nat := none
  maxPriorityFeePerGas : Option Nat := none
deriving DecidableEq, Repr

/-- Parameters of buildSafeSweep (src/safe.ts). -/
structure SafeSweepParams where
  providerUrl : String
  safeAddress : String
  «to» : String
deriving DecidableEq, Repr

/-- Payload built for the Safe Core SDK (src/safe.ts). -/
structure SafeTxPayload where
  «to» : String
  value : Nat
  data : String
deriving DecidableEq, Repr

/-- Outcome of a successful network submission in
`TempWallet.sendTransaction`: `respHash` from the submission response and
the optional hash of the awaited receipt (`receipt?.hash ?? resp.hash`). -/
structure NetResponse where
  respHash : String
  receiptHash : Option String
deriving DecidableEq, Repr

/-- TempWallet.isExpired (src/wallet.ts line 54):
`!!this.meta.expiresAt && Date.now() > (this.meta.expiresAt ?? 0)`.
`now` is the current time in milliseconds. -/
def TempWalletMeta.isExpired (meta : TempWalletMeta) (now : Nat) : Bool :=
  truthyNat meta.expiresAt && decide (now > meta.expiresAt.getD 0)

/-- TempWallet.markAsUsed (src/wallet.ts line 60): `this.meta.used = true`. -/
def TempWalletMeta.markAsUsed (meta : TempWalletMeta) : TempWalletMeta :=
  { meta with used := true }

/-- TempWallet.sendTransaction (src/wallet.ts lines 83-104). The network
round trip (`signer.sendTransaction` then `resp.wait()`) is passed in as
`net`; a network failure propagates before `markAsUsed` runs. Returns the
outcome together with the wallet metadata after the call. -/
def TempWallet.sendTransaction (meta : TempWalletMeta) (now : Nat)
    (net : Except Unit NetResponse) : Except SdkError String × TempWalletMeta :=
  if meta.used then (Except.error SdkError.alreadyUsed, meta)
  else if meta.isExpired now then (Except.error SdkError.expiredSession, meta)
  else
    match net with
    | Except.error _ => (Except.error SdkError.network, meta)
    | Except.ok r => (Except.ok (r.receiptHash.getD r.respHash), meta.markAsUsed)

/-- createTempWallet (src/wallet.ts lines 129-139):
`expiresAt: opts.ttl ? now + opts.ttl * 1000 : undefined`, `used: false`.
Key generation is external and not modelled; the metadata is total. -/
def createTempWallet (opts : CreateTempWalletOpts) (now : Nat) : TempWalletMeta :=
  { createdAt := now
    expiresAt := if truthyNat opts.ttl then some (now + opts.ttl.getD 0 * 1000) else none
    label := opts.label
    used := false }

/-- buildSweepTx (src/sweep.ts lines 36-45). `balance` is the wei balance
returned by `getBalanceWei` for `input.fromAddress`. -/
def buildSweepTx (input : SweepBuildInput) (balance : Nat) :
    Except SdkError TransactionRequest :=
  if balance = 0 then Except.error SdkError.noBalanceToSweep
  else
    let gasBuffer := input.gasLimitBuffer.getD 0
    let value := if balance > gasBuffer then balance - gasBuffer else 0
    if value ≤ 0 then Except.error SdkError.insufficientAfterBuffer
    else Except.ok { «to» := input.«to», value := value }

/-- buildSafeSweep (src/safe.ts lines 88-91). `bal` is the wei balance
returned by `getBalanceWei` for `params.safeAddress`; the full balance is
returned with no buffer subtraction and no failure path. -/
def buildSafeSweep (params : SafeSweepParams) (bal : Nat) : SafeTxPayload :=
  { «to» := params.«to», value := bal, data := "0x" }

/-- estimateTotalCostWei (src/estimate.ts): `gasUnits * gasPriceWei`. -/
def estimateTotalCostWei (input : EstimateInputWei) : Nat :=
  input.gasUnits * input.gasPriceWei

/-- estimateWithMarginWei (src/estimate.ts):
`total * BigInt(10_000 + marginBps) / 10_000n`, integer division. -/
def estimateWithMarginWei (input : EstimateInputWei) (marginBps : Nat) : Nat :=
  estimateTotalCostWei input * (10000 + marginBps) / 10000

/-- buildPaymentURI (src/utils.ts lines 76-78):
`wei ? "ethereum:" + address + "?value=" + wei : "ethereum:" + address`
(template literal; `wei` of `0n` is falsy). -/
def buildPaymentURI (address : String) (wei : Option Nat) : String :=
  match wei with
  | some w =>
      if w ≠ 0 then "ethereum:" ++ address ++ "?value=" ++ toString w
      else "ethereum:" ++ address
  | none => "ethereum:" ++ address

/-- Case analysis of buildSweepTx: zero balance errors, a balance at or
below the buffer errors, and otherwise the difference is returned. -/
lemma buildSweepTx_eq (input : SweepBuildInput) (B : Nat) :
    buildSweepTx input B =
      if B = 0 then Except.error SdkError.noBalanceToSweep
      else if B ≤ input.gasLimitBuffer.getD 0 then
        Except.error SdkError.insufficientAfterBuffer
      else Except.ok { «to» := input.«to», value := B - input.gasLimitBuffer.getD 0 } := by
  by_cases h0 : B = 0
  · simp [buildSweepTx, h0]
  · by_cases hb : input.gasLimitBuffer.getD 0 < B
    · have h1 : ¬ B ≤ input.gasLimitBuffer.getD 0 := by omega
      have h2 : ¬ B - input.gasLimitBuffer.getD 0 ≤ 0 := by omega
      simp [buildSweepTx, h0, hb, h1, h2]
    · have h1 : B ≤ input.gasLimitBuffer.getD 0 := by omega
      simp [buildSweepTx, h0, hb, h1]

/-- C1: with queried balance B and gas buffer b (0 when gasLimitBuffer is
omitted), buildSweepTx fails with NoBalanceToSweepError iff B = 0, fails
with InsufficientAfterBufferError iff 0 < B ≤ b, succeeds iff B > 0 and
B - b > 0 (i.e. b < B), and every outcome is one of these three — no other
error kind arises from this function. -/
theorem buildSweepTx_error_taxonomy (input : SweepBuildInput) (B : Nat) :
    (buildSweepTx input B = Except.error SdkError.noBalanceToSweep ↔ B = 0) ∧
    (buildSweepTx input B = Except.error SdkError.insufficientAfterBuffer ↔
      0 < B ∧ B ≤ input.gasLimitBuffer.getD 0) ∧
    ((∃ tx, buildSweepTx input B = Except.ok tx) ↔
      0 < B ∧ input.gasLimitBuffer.getD 0 < B) ∧
    (buildSweepTx input B = Except.error SdkError.noBalanceToSweep ∨
      buildSweepTx input B = Except.error SdkError.insufficientAfterBuffer ∨
      ∃ tx, buildSweepTx input B = Except.ok tx) := by
  rw [buildSweepTx_eq]
  by_cases h0 : B = 0
  · simp [h0]
  · by_cases hb : B ≤ input.gasLimitBuffer.getD 0
    · simp [h0, hb]
      omega
    · simp [h0, hb]
      omega

/-- C2: with queried balance B strictly above the gas buffer b,
buildSweepTx returns the unsigned descriptor whose destination is the
requested one, whose value is B - b, and whose gas price and gas limit
fields are all unpopulated. -/
theorem buildSweepTx_success_descriptor (input : SweepBuildInput) (B : Nat)
    (h : input.gasLimitBuffer.getD 0 < B) :
    buildSweepTx input B = Except.ok
      { «to» := input.«to», value := B - input.gasLimitBuffer.getD 0,
        gasPrice := none, gasLimit := none,
        maxFeePerGas := none, maxPriorityFeePerGas := none } := by
  rw [buildSweepTx_eq, if_neg (by omega : ¬ B = 0),
    if_neg (by omega : ¬ B ≤ input.gasLimitBuffer.getD 0)]

/-- Witness for C2 at a concrete input: buffer 1000, balance 10^16. -/
theorem buildSweepTx_success_descriptor_witness :
    ({ fromAddress := "0xF", «to» := "0xD", providerUrl := "http://localhost:8545",
       gasLimitBuffer := some 1000 } : SweepBuildInput).gasLimitBuffer.getD 0
        < 10000000000000000 ∧
    buildSweepTx
      { fromAddress := "0xF", «to» := "0xD", providerUrl := "http://localhost:8545",
        gasLimitBuffer := some 1000 } 10000000000000000 = Except.ok
      { «to» := "0xD", value := 9999999999999000, gasPrice := none, gasLimit := none,
        maxFeePerGas := none, maxPriorityFeePerGas := none } :=
  ⟨by decide, buildSweepTx_success_descriptor _ 10000000000000000 (by decide)⟩

/-- A send that returns a transaction hash leaves the wallet marked used. -/
lemma sendTransaction_ok_marks_used (meta : TempWalletMeta) (now : Nat)
    (net : Except Unit NetResponse) (h : String)
    (hok : (TempWallet.sendTransaction meta now net).1 = Except.ok h) :
    (TempWallet.sendTransaction meta now net).2.used = true := by
  unfold TempWallet.sendTransaction at *
  by_cases hu : meta.used
  · simp [hu] at hok
  · by_cases he : meta.isExpired now
    · simp [hu, he] at hok
    · cases net with
      | error e => simp [hu, he] at hok
      | ok r => simp [hu, he, TempWalletMeta.markAsUsed]

/-- C3: the used-check precedes the expiry-check: a wallet whose used flag
is true fails with AlreadyUsedError whatever its expiry state, and after a
successful guarded send a second guarded send on the resulting wallet
fails with AlreadyUsedError. -/
theorem sendTransaction_used_check_precedes_expiry :
    (∀ (meta : TempWalletMeta) (now : Nat) (net : Except Unit NetResponse),
      meta.used = true →
      TempWallet.sendTransaction meta now net = (Except.error SdkError.alreadyUsed, meta)) ∧
    (∀ (meta : TempWalletMeta) (now now2 : Nat) (net net2 : Except Unit NetResponse)
      (h : String),
      (TempWallet.sendTransaction meta now net).1 = Except.ok h →
      (TempWallet.sendTransaction (TempWallet.sendTransaction meta now net).2 now2 net2).1
        = Except.error SdkError.alreadyUsed) := by
  constructor
  · intro meta now net hu
    simp [TempWallet.sendTransaction, hu]
  · intro meta now now2 net net2 h hok
    have hused := sendTransaction_ok_marks_used meta now net h hok
    generalize hg : (TempWallet.sendTransaction meta now net).2 = m2 at hused ⊢
    simp [TempWallet.sendTransaction, hused]

/-- Witness for C3: a wallet both used and past its expiry still reports
AlreadyUsedError, and a fresh wallet succeeds once, then reports
AlreadyUsedError on the second send. -/
theorem sendTransaction_used_check_precedes_expiry_witness :
    (({ createdAt := 0, expiresAt := some 1, label := none,
        used := true } : TempWalletMeta).isExpired 9 = true) ∧
    (TempWallet.sendTransaction
        { createdAt := 0, expiresAt := some 1, label := none, used := true } 9
        (Except.ok { respHash := "0xh", receiptHash := none })
      = (Except.error SdkError.alreadyUsed,
         { createdAt := 0, expiresAt := some 1, label := none, used := true })) ∧
    ((TempWallet.sendTransaction
        { createdAt := 0, expiresAt := none, label := none, used := false } 5
        (Except.ok { respHash := "0xh", receiptHash := none })).1 = Except.ok "0xh") ∧
    ((TempWallet.sendTransaction
        (TempWallet.sendTransaction
          { createdAt := 0, expiresAt := none, label := none, used := false } 5
          (Except.ok { respHash := "0xh", receiptHash := none })).2 6
        (Except.ok { respHash := "0xg", receiptHash := none })).1
      = Except.error SdkError.alreadyUsed) :=
  ⟨rfl,
   sendTransaction_used_check_precedes_expiry.1 _ 9 _ rfl,
   rfl,
   sendTransaction_used_check_precedes_expiry.2 _ 5 6 _ _ "0xh" rfl⟩

/-- C4: whenever sendTransaction fails with AlreadyUsedError or
ExpiredSessionError, the wallet metadata after the call is exactly the
metadata before it — a failed check never marks the account used. -/
theorem sendTransaction_check_failure_preserves_meta (meta : TempWalletMeta) (now : Nat)
    (net : Except Unit NetResponse)
    (h : (TempWallet.sendTransaction meta now net).1 = Except.error SdkError.alreadyUsed ∨
      (TempWallet.sendTransaction meta now net).1 = Except.error SdkError.expiredSession) :
    (TempWallet.sendTransaction meta now net).2 = meta := by
  unfold TempWallet.sendTransaction at *
  by_cases hu : meta.used
  · simp [hu]
  · by_cases he : meta.isExpired now
    · simp [hu, he]
    · cases net with
      | error e => simp [hu, he]
      | ok r => simp [hu, he] at h

/-- Witness for C4: an expired fresh wallet fails with ExpiredSessionError
and its metadata is unchanged. -/
theorem sendTransaction_check_failure_preserves_meta_witness :
    ((TempWallet.sendTransaction
        { createdAt := 0, expiresAt := some 2, label := none, used := false } 3
        (Except.ok { respHash := "0xh", receiptHash := none })).1
      = Except.error SdkError.expiredSession) ∧
    ((TempWallet.sendTransaction
        { createdAt := 0, expiresAt := some 2, label := none, used := false } 3
        (Except.ok { respHash := "0xh", receiptHash := none })).2
      = { createdAt := 0, expiresAt := some 2, label := none, used := false }) :=
  ⟨rfl, sendTransaction_check_failure_preserves_meta _ 3 _ (Or.inr rfl)⟩

/-- C5: the used flag starts false at creation, markAsUsed leaves it true,
sendTransaction never takes it from true back to false, and once it is
true sendTransaction always fails with AlreadyUsedError. -/
theorem tempWallet_used_flag_lifecycle :
    (∀ (opts : CreateTempWalletOpts) (now : Nat), (createTempWallet opts now).used = false) ∧
    (∀ meta : TempWalletMeta, meta.markAsUsed.used = true) ∧
    (∀ (meta : TempWalletMeta) (now : Nat) (net : Except Unit NetResponse),
      meta.used = true → (TempWallet.sendTransaction meta now net).2.used = true) ∧
    (∀ (meta : TempWalletMeta) (now : Nat) (net : Except Unit NetResponse),
      meta.used = true →
      (TempWallet.sendTransaction meta now net).1 = Except.error SdkError.alreadyUsed) := by
  refine ⟨fun opts now => rfl, fun meta => rfl, ?_, ?_⟩
  · intro meta now net hu
    simp [TempWallet.sendTransaction, hu]
  · intro meta now net hu
    simp [TempWallet.sendTransaction, hu]

/-- Witness for C5 at concrete inputs: a freshly created wallet is unused,
and a used wallet stays used and cannot send. -/
theorem tempWallet_used_flag_lifecycle_witness :
    ((createTempWallet { ttl := none, label := none } 7).used = false) ∧
    (({ createdAt := 0, expiresAt := none, label := none,
        used := true } : TempWalletMeta).markAsUsed.used = true) ∧
    ((TempWallet.sendTransaction
        { createdAt := 0, expiresAt := none, label := none, used := true } 2
        (Except.ok { respHash := "0xh", receiptHash := none })).2.used = true) ∧
    ((TempWallet.sendTransaction
        { createdAt := 0, expiresAt := none, label := none, used := true } 2
        (Except.ok { respHash := "0xh", receiptHash := none })).1
      = Except.error SdkError.alreadyUsed) :=
  ⟨tempWallet_used_flag_lifecycle.1 { ttl := none, label := none } 7,
   tempWallet_used_flag_lifecycle.2.1 _,
   tempWallet_used_flag_lifecycle.2.2.1 _ 2 _ rfl,
   tempWallet_used_flag_lifecycle.2.2.2 _ 2 _ rfl⟩

/-- C6: for all gas units, gas price and margin marginBps, the margined
estimate is at least the plain estimate, a zero margin leaves the estimate
unchanged, and the margined estimate is totalCost * (10000 + marginBps) /
10000 with truncating integer division. -/
theorem estimateWithMarginWei_bounds (input : EstimateInputWei) (marginBps : Nat) :
    estimateTotalCostWei input ≤ estimateWithMarginWei input marginBps ∧
    estimateWithMarginWei input 0 = estimateTotalCostWei input ∧
    estimateWithMarginWei input marginBps
      = estimateTotalCostWei input * (10000 + marginBps) / 10000 := by
  refine ⟨?_, ?_, rfl⟩
  · unfold estimateWithMarginWei
    have hd : estimateTotalCostWei input * (10000 + marginBps)
        = estimateTotalCostWei input * 10000 + estimateTotalCostWei input * marginBps := by
      ring
    rw [hd]
    generalize estimateTotalCostWei input = t
    generalize t * marginBps = c
    omega
  · unfold estimateWithMarginWei
    generalize estimateTotalCostWei input = t
    omega

/-- C7 counterexample: createTempWallet called with ttl = 0 at time 1000
leaves expiresAt unset (JS truthiness makes `opts.ttl ?` false for 0),
instead of setting it to the creation time as the claim requires. -/
theorem createTempWallet_ttl_zero_counterexample :
    (createTempWallet { ttl := some 0, label := none } 1000).expiresAt = none ∧
    (createTempWallet { ttl := some 0, label := none } 1000).expiresAt
      ≠ some (1000 + 0 * 1000) := by
  exact ⟨rfl, by decide⟩

/-- C7 amended: createTempWallet is total; it sets createdAt to the
current time, copies the label, sets used to false, sets expiresAt to
now + ttl * 1000 when a nonzero ttl is given, and leaves expiresAt unset
when ttl is omitted or ttl = 0. -/
theorem createTempWallet_fields (opts : CreateTempWalletOpts) (now : Nat) :
    (createTempWallet opts now).createdAt = now ∧
    (createTempWallet opts now).used = false ∧
    (createTempWallet opts now).label = opts.label ∧
    (∀ t, opts.ttl = some t → t ≠ 0 →
      (createTempWallet opts now).expiresAt = some (now + t * 1000)) ∧
    ((opts.ttl = none ∨ opts.ttl = some 0) → (createTempWallet opts now).expiresAt = none) := by
  refine ⟨rfl, rfl, rfl, ?_, ?_⟩
  · intro t ht hnz
    simp [createTempWallet, truthyNat, ht, hnz]
  · intro h
    rcases h with h | h <;> simp [createTempWallet, truthyNat, h]

/-- Witness for C7 amended: ttl = 3600 at time 500 expires at
500 + 3600 * 1000; ttl omitted and ttl = 0 leave expiresAt unset. -/
theorem createTempWallet_fields_witness :
    (createTempWallet { ttl := some 3600, label := none } 500).createdAt = 500 ∧
    (createTempWallet { ttl := some 3600, label := none } 500).used = false ∧
    (createTempWallet { ttl := some 3600, label := none } 500).expiresAt
      = some (500 + 3600 * 1000) ∧
    (createTempWallet { ttl := none, label := none } 500).expiresAt = none ∧
    (createTempWallet { ttl := some 0, label := none } 500).expiresAt = none :=
  ⟨(createTempWallet_fields { ttl := some 3600, label := none } 500).1,
   (createTempWallet_fields { ttl := some 3600, label := none } 500).2.1,
   (createTempWallet_fields { ttl := some 3600, label := none } 500).2.2.2.1
     3600 rfl (by decide),
   (createTempWallet_fields { ttl := none, label := none } 500).2.2.2.2 (Or.inl rfl),
   (createTempWallet_fields { ttl := some 0, label := none } 500).2.2.2.2 (Or.inr rfl)⟩

/-- C8 counterexample: buildPaymentURI with amount 0 yields the bare URI
with no value query (JS truthiness makes `wei ?` false for 0n), not the
URI with a value field the claim requires. -/
theorem buildPaymentURI_zero_counterexample :
    buildPaymentURI "0xAbCd" (some 0) = "ethereum:" ++ "0xAbCd" ∧
    buildPaymentURI "0xAbCd" (some 0)
      ≠ "ethereum:" ++ "0xAbCd" ++ "?value=" ++ toString (0 : Nat) := by
  exact ⟨rfl, by decide⟩

/-- C8 amended: buildPaymentURI with no amount yields exactly
"ethereum:" + addr; with a nonzero amount w it yields exactly
"ethereum:" + addr + "?value=" + the decimal string of w; with amount 0 it
yields the bare "ethereum:" + addr, the same as when the amount is
omitted. -/
theorem buildPaymentURI_format (addr : String) (w : Nat) :
    buildPaymentURI addr none = "ethereum:" ++ addr ∧
    buildPaymentURI addr (some 0) = "ethereum:" ++ addr ∧
    (w ≠ 0 → buildPaymentURI addr (some w) = "ethereum:" ++ addr ++ "?value=" ++ toString w) := by
  refine ⟨rfl, rfl, ?_⟩
  intro hw
  simp [buildPaymentURI, hw]

/-- Witness for C8 amended at addr "0xA" and amount 7. -/
theorem buildPaymentURI_format_witness :
    buildPaymentURI "0xA" none = "ethereum:" ++ "0xA" ∧
    buildPaymentURI "0xA" (some 0) = "ethereum:" ++ "0xA" ∧
    buildPaymentURI "0xA" (some 7) = "ethereum:" ++ "0xA" ++ "?value=" ++ toString (7 : Nat) :=
  ⟨(buildPaymentURI_format "0xA" 7).1,
   (buildPaymentURI_format "0xA" 7).2.1,
   (buildPaymentURI_format "0xA" 7).2.2 (by decide)⟩

/-- C9: buildSafeSweep returns the payload with the full queried balance
(also when it is 0), destination as requested and data "0x", with no
buffer subtraction and no failure path, whereas buildSweepTx errors at
balance 0. -/
theorem buildSafeSweep_full_balance (params : SafeSweepParams) (bal : Nat)
    (input : SweepBuildInput) :
    buildSafeSweep params bal = { «to» := params.«to», value := bal, data := "0x" } ∧
    buildSafeSweep params 0 = { «to» := params.«to», value := 0, data := "0x" } ∧
    buildSweepTx input 0 = Except.error SdkError.noBalanceToSweep :=
  ⟨rfl, rfl, rfl⟩

/-- C10: isExpired is true exactly when expiresAt holds a nonzero value
strictly below the current time; at the instant now = expiresAt the wallet
is not yet expired, a wallet with expiresAt unset never expires, and one
constructed with expiresAt = 0 is treated as never expiring. -/
theorem isExpired_characterization :
    (∀ (meta : TempWalletMeta) (now : Nat),
      meta.isExpired now = true ↔ ∃ e, meta.expiresAt = some e ∧ e ≠ 0 ∧ e < now) ∧
    (∀ (meta : TempWalletMeta) (e : Nat),
      meta.expiresAt = some e → meta.isExpired e = false) ∧
    (∀ (meta : TempWalletMeta) (now : Nat),
      meta.expiresAt = none → meta.isExpired now = false) ∧
    (∀ (meta : TempWalletMeta) (now : Nat),
      meta.expiresAt = some 0 → meta.isExpired now = false) := by
  have key : ∀ (meta : TempWalletMeta) (now : Nat),
      meta.isExpired now = true ↔ ∃ e, meta.expiresAt = some e ∧ e ≠ 0 ∧ e < now := by
    intro meta now
    unfold TempWalletMeta.isExpired truthyNat
    cases h : meta.expiresAt with
    | none => simp
    | some e =>
      by_cases he : e = 0
      · simp [he]
      · simp [he]
  refine ⟨key, ?_, ?_, ?_⟩
  · intro meta e h
    rw [Bool.eq_false_iff]
    intro hc
    obtain ⟨x, hx, _, hlt⟩ := (key meta e).mp hc
    rw [h] at hx
    cases hx
    omega
  · intro meta now h
    rw [Bool.eq_false_iff]
    intro hc
    obtain ⟨x, hx, _, _⟩ := (key meta now).mp hc
    rw [h] at hx
    cases hx
  · intro meta now h
    rw [Bool.eq_false_iff]
    intro hc
    obtain ⟨x, hx, hnz, _⟩ := (key meta now).mp hc
    rw [h] at hx
    cases hx
    exact hnz rfl

/-- Witness for C10 at concrete metadata: expiry 5 is not expired at 5 but
expired at 6; unset expiry and zero expiry never expire. -/
theorem isExpired_characterization_witness :
    (({ createdAt := 0, expiresAt := some 5, label := none,
        used := false } : TempWalletMeta).isExpired 5 = false) ∧
    (({ createdAt := 0, expiresAt := some 5, label := none,
        used := false } : TempWalletMeta).isExpired 6 = true) ∧
    (({ createdAt := 0, expiresAt := none, label := none,
        used := false } : TempWalletMeta).isExpired 99 = false) ∧
    (({ createdAt := 0, expiresAt := some 0, label := none,
        used := false } : TempWalletMeta).isExpired 99 = false) :=
  ⟨isExpired_characterization.2.1 _ 5 rfl,
   (isExpired_characterization.1 _ 6).mpr ⟨5, rfl, by decide, by decide⟩,
   isExpired_characterization.2.2.1 _ 99 rfl,
   isExpired_characterization.2.2.2 _ 99 rfl⟩
